import Mathlib

/-!
# Verification of the revenue-model-optimizer variant analytics pipeline

A shallow embedding of the variant-level analytics and scoring pipeline of the
products service (stale-inventory percentage analysis, variant metrics,
rule-based suggestion engine, category resolution, bounded pagination), with
theorems checking the natural-language specification against it.

JavaScript numbers are modelled as exact rationals (`ℚ`); `Math.ceil`,
`Math.round` and `toFixed(2)`-style output rounding are modelled exactly on
`ℚ`.  Timestamps are milliseconds since epoch as `ℚ`; `Date.getMonth()` is
carried as a separate field of the date model.
-/

namespace RMO

/-- `Math.ceil` on an exact rational. -/
def jsCeil (x : ℚ) : ℤ := ⌈x⌉

/-- `Math.round` on an exact rational: round half toward positive infinity. -/
def jsRound (x : ℚ) : ℤ := ⌊x + 1/2⌋

/-- `Math.round(x * 100) / 100`: round to 2 decimal places, half up —
also the exact-arithmetic model of `toFixed(2)` for nonnegative values. -/
def round2 (x : ℚ) : ℚ := (jsRound (x * 100) : ℚ) / 100

/-! ## Constants (src/common/constants/product.constants.ts) -/

/-- `TIME_CONSTANTS.MILLISECONDS_PER_DAY` -/
def MILLISECONDS_PER_DAY : ℚ := 1000 * 60 * 60 * 24

/-- `TIME_CONSTANTS.DAYS_PER_MONTH` -/
def DAYS_PER_MONTH : ℚ := 30

/-- `TIME_CONSTANTS.MINIMUM_MONTHS_LIVE` (1 day ≈ 0.033 months) -/
def MINIMUM_MONTHS_LIVE : ℚ := 33 / 1000

/-- `DEFAULT_THRESHOLDS.STALE_PERCENTAGE` -/
def STALE_PERCENTAGE : ℚ := 10

/-! ## StaleInventoryAnalyzer: `calculatePercentageBasedStaleAnalysis` -/

/-- The `PercentageBasedStaleAnalysis` result object (numeric fields are
rounded to 2 decimals at the point of output, as in the source). -/
structure PercentageBasedStaleAnalysis where
  is_stale : Bool
  monthly_sales_rate : ℚ
  percent_sold_per_month : ℚ
  months_live : ℚ
  threshold_percent_used : ℚ
  deriving Repr, DecidableEq

/-- `calculatePercentageBasedStaleAnalysis(unitsSold, totalInventoryAdded,
publishDate, currentDate, thresholdPercent)`; the two dates are millisecond
timestamps (`Date.getTime()` values). -/
def calculatePercentageBasedStaleAnalysis (unitsSold totalInventoryAdded : ℚ)
    (publishTime currentTime : ℚ) (thresholdPercent : ℚ) :
    PercentageBasedStaleAnalysis :=
  let daysLive : ℚ := (jsCeil ((currentTime - publishTime) / MILLISECONDS_PER_DAY) : ℚ)
  let monthsLive : ℚ := max (daysLive / DAYS_PER_MONTH) MINIMUM_MONTHS_LIVE
  let monthlySalesRate : ℚ := unitsSold / monthsLive
  let percentSoldPerMonth : ℚ :=
    if totalInventoryAdded > 0 then monthlySalesRate / totalInventoryAdded * 100 else 0
  let isStale : Bool := decide (percentSoldPerMonth < thresholdPercent)
  { is_stale := isStale
    monthly_sales_rate := round2 monthlySalesRate
    percent_sold_per_month := round2 percentSoldPerMonth
    months_live := round2 monthsLive
    threshold_percent_used := thresholdPercent }

/-- The months-live quantity of the stale analysis, as the spec states it:
`max(ceil((c - p) / 1 day) / 30, 0.033)`. -/
def specMonthsLive (publishTime currentTime : ℚ) : ℚ :=
  max ((jsCeil ((currentTime - publishTime) / MILLISECONDS_PER_DAY) : ℚ) / 30) (33 / 1000)

/-- The percent-sold-per-month quantity of the stale analysis, as the spec
states it: `((u / months_live) / n) * 100` when `n > 0`, and `0` when not. -/
def specPercentSoldPerMonth (unitsSold totalInventoryAdded publishTime currentTime : ℚ) : ℚ :=
  if totalInventoryAdded > 0 then
    unitsSold / specMonthsLive publishTime currentTime / totalInventoryAdded * 100
  else 0

/-! ## SuggestionEngine: `generateVariantSuggestions` and helpers -/

/-- The fixed suggestion type tags. -/
inductive SuggestionType where
  | CRITICAL_INVENTORY | LOW_INVENTORY | INVENTORY_WARNING | OVERSTOCK
  | NO_SALES | POOR_PERFORMANCE | BELOW_TARGET | HIGH_PERFORMER
  | DECLINING_TREND | POSITIVE_MOMENTUM | PRICING_OPPORTUNITY
  | SEASONAL_PLANNING | BUNDLING_OPPORTUNITY
  deriving Repr, DecidableEq

/-- Suggestion priority levels. -/
inductive Priority where
  | URGENT | HIGH | MEDIUM | LOW | CRITICAL
  deriving Repr, DecidableEq

/-- One emitted suggestion.  The free-text `action`/`reason` strings are not
modelled, except that for `PRICING_OPPORTUNITY` the dollar amount printed in
the action string (`(price + potentialIncrease).toFixed(2)`) is carried as
`proposedPrice`. -/
structure Suggestion where
  type : SuggestionType
  priority : Priority
  proposedPrice : Option ℚ := none
  deriving Repr, DecidableEq

/-- The six inventory status labels of `getSimpleInventoryStatus`. -/
inductive InventoryStatus where
  | OUT_OF_STOCK | CRITICAL_LOW | LOW | OPTIMAL | HIGH | OVERSTOCKED
  deriving Repr, DecidableEq

/-- Trend labels of the performance summary. -/
inductive Trend where
  | IMPROVING | DECLINING | STABLE
  deriving Repr, DecidableEq

/-- `getSimpleInventoryStatus(daysRemaining, currentStock)`. -/
def getSimpleInventoryStatus (daysRemaining currentStock : ℚ) : InventoryStatus :=
  if currentStock = 0 then .OUT_OF_STOCK
  else if daysRemaining ≤ 7 then .CRITICAL_LOW
  else if daysRemaining ≤ 30 then .LOW
  else if daysRemaining ≤ 90 then .OPTIMAL
  else if daysRemaining ≤ 180 then .HIGH
  else .OVERSTOCKED

/-- The "Inventory-based suggestions" `if/else if` chain of
`generateVariantSuggestions`. -/
def inventorySuggestions (currentInventory daysOfStockRemaining : ℚ) : List Suggestion :=
  if currentInventory = 0 then
    [{ type := .CRITICAL_INVENTORY, priority := .URGENT }]
  else if daysOfStockRemaining ≤ 7 then
    [{ type := .LOW_INVENTORY, priority := .HIGH }]
  else if daysOfStockRemaining ≤ 30 then
    [{ type := .INVENTORY_WARNING, priority := .MEDIUM }]
  else if daysOfStockRemaining > 180 then
    [{ type := .OVERSTOCK, priority := .MEDIUM }]
  else []

/-- The "Performance-based suggestions" `if/else if` chain of
`generateVariantSuggestions`. -/
def performanceSuggestions (monthlySalesRate staleThreshold : ℚ) : List Suggestion :=
  if monthlySalesRate = 0 then
    [{ type := .NO_SALES, priority := .CRITICAL }]
  else if monthlySalesRate < staleThreshold * (3/10) then
    [{ type := .POOR_PERFORMANCE, priority := .HIGH }]
  else if monthlySalesRate < staleThreshold then
    [{ type := .BELOW_TARGET, priority := .MEDIUM }]
  else if monthlySalesRate ≥ staleThreshold * 2 then
    [{ type := .HIGH_PERFORMER, priority := .LOW }]
  else []

/-- The "Trend-based suggestions" chain of `generateVariantSuggestions`. -/
def trendSuggestions (salesAcceleration : ℚ) : List Suggestion :=
  if salesAcceleration < -(3/10) then
    [{ type := .DECLINING_TREND, priority := .HIGH }]
  else if salesAcceleration > 3/10 then
    [{ type := .POSITIVE_MOMENTUM, priority := .MEDIUM }]
  else []

/-- The "Revenue optimization suggestions" block of
`generateVariantSuggestions`: `potentialIncrease = Math.round(price*0.15*100)/100`
and the action string prints `(price + potentialIncrease).toFixed(2)`. -/
def pricingSuggestions (price monthlySalesRate staleThreshold : ℚ) : List Suggestion :=
  if monthlySalesRate ≥ staleThreshold ∧ price > 0 then
    let potentialIncrease := round2 (price * (15/100))
    [{ type := .PRICING_OPPORTUNITY, priority := .LOW
       proposedPrice := some (round2 (price + potentialIncrease)) }]
  else []

/-- The "Seasonal suggestions" block of `generateVariantSuggestions`. -/
def seasonalSuggestions (seasonalityScore : ℚ) : List Suggestion :=
  if seasonalityScore > 1/2 then
    [{ type := .SEASONAL_PLANNING, priority := .MEDIUM }]
  else []

/-- The "Bundle suggestions for slow movers" block of
`generateVariantSuggestions`. -/
def bundlingSuggestions (monthlySalesRate staleThreshold totalRevenue : ℚ) : List Suggestion :=
  if monthlySalesRate < staleThreshold ∧ totalRevenue > 0 then
    [{ type := .BUNDLING_OPPORTUNITY, priority := .MEDIUM }]
  else []

/-- The object returned by `generateVariantSuggestions`.  Of the
`performance_summary` we model the `inventory_status` and `trend` labels; the
`threshold_explanation` free-text block is not modelled. -/
structure SuggestionsOutput where
  total_suggestions : ℕ
  suggestions : List Suggestion
  inventory_status : InventoryStatus
  trend : Trend
  deriving Repr, DecidableEq

/-- `generateVariantSuggestions`: the suggestion blocks are pushed onto one
array in source order (inventory, performance, trend, pricing, seasonal,
bundling).  `price = parseFloat(variant.price) || 0` is taken as an argument;
the `variant`, `product`, `monthsLive`, `staleAnalysis` and
`totalQuantitySold` parameters of the source feed only the unmodelled
free-text fields. -/
def generateVariantSuggestions (price monthlySalesRate staleThreshold
    currentInventory daysOfStockRemaining totalRevenue
    salesAcceleration seasonalityScore : ℚ) : SuggestionsOutput :=
  let suggestions :=
    inventorySuggestions currentInventory daysOfStockRemaining ++
    performanceSuggestions monthlySalesRate staleThreshold ++
    trendSuggestions salesAcceleration ++
    pricingSuggestions price monthlySalesRate staleThreshold ++
    seasonalSuggestions seasonalityScore ++
    bundlingSuggestions monthlySalesRate staleThreshold totalRevenue
  { total_suggestions := suggestions.length
    suggestions := suggestions
    inventory_status := getSimpleInventoryStatus daysOfStockRemaining currentInventory
    trend := if salesAcceleration > 1/10 then .IMPROVING
             else if salesAcceleration < -(1/10) then .DECLINING
             else .STABLE }

/-! ## Data model (Shopify payload subset used by the pipeline) -/

/-- A JavaScript `Date`: `time` is `getTime()` (milliseconds since epoch),
`month` is `getMonth()` (0–11).  The calendar computation relating the two is
not re-derived; the pipeline only ever uses these two accessors. -/
structure JSDate where
  time : ℚ
  month : ℕ
  deriving Repr, DecidableEq

/-- An order line item (fields used): `variant_id`, `quantity` (with the
`|| 0` default already applied), `price` (`parseFloat`ed). -/
structure LineItem where
  variant_id : ℤ
  quantity : ℚ
  price : ℚ
  deriving Repr, DecidableEq

/-- An order (fields used): creation date and line items. -/
structure Order where
  created_at : JSDate
  line_items : List LineItem
  deriving Repr, DecidableEq

/-- A variant (fields used); `price` and `compare_at_price` carry
`parseFloat(…) || 0`, `inventory_quantity` carries `… || 0`. -/
structure Variant where
  id : ℤ
  price : ℚ
  compare_at_price : ℚ
  inventory_quantity : ℚ
  deriving Repr, DecidableEq

/-- A product (fields used): `published_at || created_at` as one date. -/
structure Product where
  published_at : JSDate
  deriving Repr, DecidableEq

/-- Units of a single order attributed to a variant:
`line_items.filter(item => item.variant_id == variantId)` summed over
`item.quantity || 0`. -/
def variantOrderQty (variantId : ℤ) (o : Order) : ℚ :=
  ((o.line_items.filter (fun it => it.variant_id = variantId)).map (·.quantity)).sum

/-- Whether an order has a line item for the variant
(`order.line_items?.some(item => item.variant_id == variantId)`). -/
def orderHasVariant (variantId : ℤ) (o : Order) : Bool :=
  o.line_items.any (fun it => it.variant_id = variantId)

/-- The `totalQuantitySold` accumulation of `calculateFocusedVariantAnalytics`:
over every order, every matching line item's `quantity`. -/
def totalQuantitySoldOf (variantId : ℤ) (orders : List Order) : ℚ :=
  (orders.map (variantOrderQty variantId)).sum

/-- The `totalRevenue` accumulation: over every order, every matching line
item's `parseFloat(item.price) * quantity`. -/
def totalRevenueOf (variantId : ℤ) (orders : List Order) : ℚ :=
  (orders.map (fun o =>
    ((o.line_items.filter (fun it => it.variant_id = variantId)).map
      (fun it => it.price * it.quantity)).sum)).sum

/-- `calculateSalesAcceleration(orders, variantId)`: split the variant's
orders (sorted by creation time) into two halves and compare
units-per-day rates. -/
def calculateSalesAcceleration (orders : List Order) (variantId : ℤ) : ℚ :=
  let variantOrders :=
    (orders.filter (orderHasVariant variantId)).mergeSort
      (fun a b => a.created_at.time ≤ b.created_at.time)
  if variantOrders.length < 2 then 0 else
  let midPoint := variantOrders.length / 2
  let firstHalf := variantOrders.take midPoint
  let secondHalf := variantOrders.drop midPoint
  let firstHalfSales := (firstHalf.map (variantOrderQty variantId)).sum
  let secondHalfSales := (secondHalf.map (variantOrderQty variantId)).sum
  let firstHalfDays : ℚ :=
    if firstHalf.length > 0 then
      (((firstHalf.getLast?.map (·.created_at.time)).getD 0) -
        ((firstHalf.head?.map (·.created_at.time)).getD 0)) / MILLISECONDS_PER_DAY
    else 1
  let secondHalfDays : ℚ :=
    if secondHalf.length > 0 then
      (((secondHalf.getLast?.map (·.created_at.time)).getD 0) -
        ((secondHalf.head?.map (·.created_at.time)).getD 0)) / MILLISECONDS_PER_DAY
    else 1
  let firstHalfRate := firstHalfSales / max firstHalfDays 1
  let secondHalfRate := secondHalfSales / max secondHalfDays 1
  if firstHalfRate > 0 then (secondHalfRate - firstHalfRate) / firstHalfRate else 0

/-- `calculateSeasonalityScore(orders, variantId)`: bucket matching units by
calendar month, return coefficient of variation.  `Object.values(salesByMonth)`
enumerates the integer month keys in ascending order; a key exists exactly
when some order in that month has a matching line item.  `Math.sqrt` is not
representable in `ℚ`; it is abstracted as the oracle argument `sqrtFn`
(no claim depends on its value). -/
def calculateSeasonalityScore (sqrtFn : ℚ → ℚ) (orders : List Order) (variantId : ℤ) : ℚ :=
  let monthKeys := (List.range 12).filter (fun m =>
    orders.any (fun o => decide (o.created_at.month = m) && orderHasVariant variantId o))
  let monthlyValues := monthKeys.map (fun m =>
    ((orders.filter (fun o => o.created_at.month = m)).map (variantOrderQty variantId)).sum)
  if monthlyValues.length < 2 then 0 else
  let mean := monthlyValues.sum / (monthlyValues.length : ℚ)
  let variance := (monthlyValues.map (fun v => (v - mean) ^ 2)).sum / (monthlyValues.length : ℚ)
  if mean > 0 then sqrtFn variance / mean else 0

/-- `calculatePriceElasticity(variant, orders)`. -/
def calculatePriceElasticity (variant : Variant) (orders : List Order) : ℚ :=
  let currentPrice := variant.price
  let compareAtPrice := variant.compare_at_price
  if compareAtPrice > 0 ∧ currentPrice > 0 then
    let priceChange := (currentPrice - compareAtPrice) / compareAtPrice
    let totalSales := totalQuantitySoldOf variant.id orders
    if priceChange ≠ 0 then totalSales / |priceChange| else 0
  else 0

/-- The object returned by `calculateStockStatus`. -/
structure StockStatus where
  status : String
  daysRemaining : ℤ
  reorderRecommended : Bool
  deriving Repr, DecidableEq

/-- `calculateStockStatus(currentStock, averageDailySales)`: note the
division `stock / dailySales` only happens under the `dailySales > 0`
guard. -/
def calculateStockStatus (currentStock averageDailySales : ℚ) : StockStatus :=
  let stock := currentStock
  let dailySales := averageDailySales
  if stock = 0 then
    { status := "out_of_stock", daysRemaining := 0, reorderRecommended := true }
  else if dailySales > 0 then
    let daysRemaining := jsCeil (stock / dailySales)
    if (daysRemaining : ℚ) ≤ 7 then
      { status := "low_stock", daysRemaining := jsRound (daysRemaining : ℚ),
        reorderRecommended := true }
    else if (daysRemaining : ℚ) ≤ 30 then
      { status := "moderate_stock", daysRemaining := jsRound (daysRemaining : ℚ),
        reorderRecommended := false }
    else
      { status := "high_stock", daysRemaining := jsRound (daysRemaining : ℚ),
        reorderRecommended := false }
  else
    if stock < 10 then
      { status := "low_stock", daysRemaining := 0, reorderRecommended := false }
    else if stock < 50 then
      { status := "moderate_stock", daysRemaining := 0, reorderRecommended := false }
    else
      { status := "high_stock", daysRemaining := 0, reorderRecommended := false }

/-- `staleThreshold || 10` for the optional `staleThreshold` argument:
an absent or zero (JS-falsy) value defaults to 10. -/
def jsOrDefault (x : Option ℚ) (d : ℚ) : ℚ :=
  match x with
  | none => d
  | some v => if v = 0 then d else v

/-- The numeric core of the object returned by
`calculateFocusedVariantAnalytics` (identifier/string/category fields are not
modelled). -/
structure FocusedVariantAnalytics where
  current_quantity : ℚ
  estimated_initial_quantity : ℚ
  total_quantity_sold : ℚ
  inventory_turnover_rate : ℚ
  monthly_sales_rate : ℚ
  daily_sales_rate : ℚ
  total_revenue : ℚ
  days_live : ℤ
  months_live : ℚ
  is_stale : ℤ
  stockout_risk : ℤ
  percent_sold_per_month : ℚ
  threshold_percent_used : ℚ
  days_of_stock_remaining : ℤ
  sales_acceleration : ℚ
  seasonality_score : ℚ
  price_elasticity_indicator : ℚ
  stale_analysis : PercentageBasedStaleAnalysis
  suggestions : SuggestionsOutput
  deriving Repr, DecidableEq

/-- `calculateFocusedVariantAnalytics(variant, orders, product, staleThreshold)`.
`currentTime` is `new Date()` at the call (`Date.getTime()` milliseconds);
`sqrtFn` abstracts `Math.sqrt` (see `calculateSeasonalityScore`). -/
def calculateFocusedVariantAnalytics (sqrtFn : ℚ → ℚ) (variant : Variant)
    (orders : List Order) (product : Product) (currentTime : ℚ)
    (staleThreshold : Option ℚ) : FocusedVariantAnalytics :=
  let totalQuantitySold := totalQuantitySoldOf variant.id orders
  let totalRevenue := totalRevenueOf variant.id orders
  let publishedAt := product.published_at.time
  let daysLive : ℤ := jsCeil ((currentTime - publishedAt) / MILLISECONDS_PER_DAY)
  let monthsLive : ℚ := (daysLive : ℚ) / 30
  let currentInventory := variant.inventory_quantity
  let estimatedInitialInventory := currentInventory + totalQuantitySold
  let monthlySalesRate : ℚ := if monthsLive > 0 then totalQuantitySold / monthsLive else 0
  let thresholdPercent := jsOrDefault staleThreshold 10
  let staleAnalysis := calculatePercentageBasedStaleAnalysis totalQuantitySold
    estimatedInitialInventory publishedAt currentTime thresholdPercent
  let averageDailySales : ℚ :=
    if (daysLive : ℚ) > 0 then totalQuantitySold / (daysLive : ℚ) else 0
  let daysOfStockRemaining : ℚ :=
    if averageDailySales > 0 then currentInventory / averageDailySales else 0
  let inventoryTurnoverRate : ℚ :=
    if estimatedInitialInventory > 0 then totalQuantitySold / estimatedInitialInventory else 0
  let stockoutRisk : ℤ := if daysOfStockRemaining ≤ 30 then 1 else 0
  let salesAcceleration := calculateSalesAcceleration orders variant.id
  let seasonalityScore := calculateSeasonalityScore sqrtFn orders variant.id
  let priceElasticity := calculatePriceElasticity variant orders
  let suggestions := generateVariantSuggestions variant.price monthlySalesRate
    thresholdPercent currentInventory daysOfStockRemaining totalRevenue
    salesAcceleration seasonalityScore
  { current_quantity := currentInventory
    estimated_initial_quantity := estimatedInitialInventory
    total_quantity_sold := totalQuantitySold
    inventory_turnover_rate := round2 inventoryTurnoverRate
    monthly_sales_rate := round2 monthlySalesRate
    daily_sales_rate := round2 averageDailySales
    total_revenue := round2 totalRevenue
    days_live := daysLive
    months_live := round2 monthsLive
    is_stale := if staleAnalysis.is_stale then 1 else 0
    stockout_risk := stockoutRisk
    percent_sold_per_month := staleAnalysis.percent_sold_per_month
    threshold_percent_used := staleAnalysis.threshold_percent_used
    days_of_stock_remaining := jsRound daysOfStockRemaining
    sales_acceleration := round2 salesAcceleration
    seasonality_score := round2 seasonalityScore
    price_elasticity_indicator := round2 priceElasticity
    stale_analysis := staleAnalysis
    suggestions := suggestions }

/-! ## ProductCategoryResolver -/

/-- `PREDEFINED_CATEGORIES` (product.constants.ts). -/
def PREDEFINED_CATEGORIES : List String :=
  ["furniture", "fashion", "food", "fitness", "electronics"]

/-- `CATEGORY_MAPPING` (product.constants.ts). -/
def CATEGORY_MAPPING : List (String × String) :=
  [("clothing", "fashion"), ("accessories", "fashion"), ("electronics", "electronics"),
   ("home", "home"), ("sports", "fitness"), ("health", "health"), ("beauty", "beauty"),
   ("toys", "toys"), ("books", "books"), ("automotive", "automotive")]

/-- JS `s.toLowerCase()`, on the character-list view of the string. -/
def jsToLower (s : String) : List Char := s.toList.map Char.toLower

/-- JS `haystack.includes(needle)`: substring containment, with the haystack
already lowered to its character list. -/
def jsIncludes (haystack : List Char) (needle : String) : Bool :=
  decide (needle.toList <:+: haystack)

/-- `getCategoryFromTags(tags)`: `if (!tags) return null` (absent or empty
string is falsy), then return the first predefined category that is a
substring of the lower-cased tags. -/
def getCategoryFromTags (tags : Option String) : Option String :=
  match tags with
  | none => none
  | some t =>
    if t = "" then none
    else PREDEFINED_CATEGORIES.find? (fun category => jsIncludes (jsToLower t) category)

/-- `getProductCategory(productType)`:
`CATEGORY_MAPPING[productType?.toLowerCase()] || "general"`. -/
def getProductCategory (productType : Option String) : String :=
  match productType with
  | none => "general"
  | some t =>
    match CATEGORY_MAPPING.find? (fun p => p.1.toList = jsToLower t) with
    | some p => p.2
    | none => "general"

/-- The external AI classification response: the six possible category fields
the source probes, in probe order (`categories_in_training_data[0]`,
`category`, `data.category`, `predicted_category`, `classification`,
`result.category`). -/
structure AIResponse where
  categories_in_training_data : List String
  category : Option String
  data_category : Option String
  predicted_category : Option String
  classification : Option String
  result_category : Option String
  deriving Repr, DecidableEq

/-- JS truthiness for an optional string field: absent or `""` is falsy. -/
def jsTruthyStr (x : Option String) : Option String :=
  match x with
  | none => none
  | some s => if s = "" then none else some s

/-- The `||`-chain extracting a category from the AI response. -/
def extractAICategory (r : AIResponse) : Option String :=
  (jsTruthyStr r.categories_in_training_data.head?).orElse fun _ =>
  (jsTruthyStr r.category).orElse fun _ =>
  (jsTruthyStr r.data_category).orElse fun _ =>
  (jsTruthyStr r.predicted_category).orElse fun _ =>
  (jsTruthyStr r.classification).orElse fun _ =>
  jsTruthyStr r.result_category

/-- The outcome of attempting the external classification call:
`Except.error` models any thrown error (network failure or non-OK response),
`Except.ok` a parsed JSON body. -/
abbrev AICallOutcome := Except Unit AIResponse

/-- `getProductCategoryFromAI(product, …)`, as a function of the product's
`tags` and `product_type`, whether `AI_CATEGORY_API_BASE_URL` is configured,
and the outcome of the external call.  Returns the category together with a
flag recording whether the external endpoint was invoked.  The whole body is
wrapped in `try/catch` whose handler returns `getProductCategory`; every
branch below is total, so the function never propagates an error. -/
def getProductCategoryFromAI (tags productType : Option String)
    (aiConfigured : Bool) (aiCall : AICallOutcome) : String × Bool :=
  match getCategoryFromTags tags with
  | some categoryFromTags => (categoryFromTags, false)
  | none =>
    if ¬aiConfigured then (getProductCategory productType, false)
    else
      match aiCall with
      | .error _ => (getProductCategory productType, true)
      | .ok result =>
        match extractAICategory result with
        | some aiCategory => (aiCategory, true)
        | none => (getProductCategory productType, true)

/-! ## Pagination: `getAllProducts` -/

/-- One upstream page response, as `getAllProducts` consumes it: the products
array and the `hasNext`/`nextPageInfo` extracted from the `Link` header.
The product payloads themselves are opaque (`ℤ` identifiers). -/
structure PageResponse where
  products : List ℤ
  hasNext : Bool
  deriving Repr, DecidableEq

/-- The `while (hasNextPage && pageCount < 50)` loop of `getAllProducts`,
with the remaining iteration budget `50 - pageCount` made explicit as fuel
(the loop guard is exactly what makes it structural).  `resp n` is the
response to the (n+1)-st fetch.  Returns the accumulated products and the
final `pageCount` (i.e. the number of fetches performed). -/
def getAllProductsLoop (resp : ℕ → PageResponse) :
    ℕ → ℕ → List ℤ → List ℤ × ℕ
  | 0, pageCount, allProducts => (allProducts, pageCount)
  | budget + 1, pageCount, allProducts =>
    let response := resp pageCount
    let allProducts' := allProducts ++ response.products
    let hasNextPage := response.hasNext && decide (response.products.length ≥ 250)
    let pageCount' := pageCount + 1
    if hasNextPage then getAllProductsLoop resp budget pageCount' allProducts'
    else (allProducts', pageCount')

/-- `getAllProducts(client, shopDomain)` over an abstract stream of upstream
responses: starts with `pageCount = 0`, empty accumulator, and the loop bound
`pageCount < 50`. -/
def getAllProducts (resp : ℕ → PageResponse) : List ℤ × ℕ :=
  getAllProductsLoop resp 50 0 []

/-- The four tags the "Performance-based suggestions" rule can emit. -/
def isPerformanceSuggestionType : SuggestionType → Bool
  | .NO_SALES | .POOR_PERFORMANCE | .BELOW_TARGET | .HIGH_PERFORMER => true
  | _ => false

/-- The four tags the "Inventory-based suggestions" rule can emit. -/
def isInventorySuggestionType : SuggestionType → Bool
  | .CRITICAL_INVENTORY | .LOW_INVENTORY | .INVENTORY_WARNING | .OVERSTOCK => true
  | _ => false

/-! ## Helper lemmas -/

theorem round2_zero : round2 0 = 0 := by
  norm_num [round2, jsRound]

theorem specMonthsLive_pos (p c : ℚ) : 0 < specMonthsLive p c :=
  lt_of_lt_of_le (by norm_num) (le_max_right _ _)

/-- The percent-sold-per-month of the pipeline (inventory = current + sold) is
monotone non-decreasing in units sold, on the physical domain. -/
theorem specPercent_mono_units (inv p c u1 u2 : ℚ) (hinv : 0 ≤ inv)
    (hu1 : 0 ≤ u1) (h12 : u1 ≤ u2) :
    specPercentSoldPerMonth u1 (inv + u1) p c ≤ specPercentSoldPerMonth u2 (inv + u2) p c := by
  have hm := specMonthsLive_pos p c
  set m := specMonthsLive p c with hmdef
  unfold specPercentSoldPerMonth
  rw [← hmdef]
  by_cases h1 : inv + u1 > 0
  · have h2 : inv + u2 > 0 := by linarith
    rw [if_pos h1, if_pos h2]
    rw [div_div, div_div, div_mul_eq_mul_div, div_mul_eq_mul_div,
      div_le_div_iff₀ (by positivity) (by positivity)]
    have key : 0 ≤ (u2 - u1) * inv := mul_nonneg (by linarith) hinv
    nlinarith [hm.le, key]
  · rw [if_neg h1]
    by_cases h2 : inv + u2 > 0
    · rw [if_pos h2]
      have hu2 : 0 ≤ u2 := le_trans hu1 h12
      positivity
    · rw [if_neg h2]

/-- The staleness flag of the analysis is exactly the comparison of the
spec-shaped percent-sold-per-month against the threshold. -/
theorem is_stale_iff (u n p c t : ℚ) :
    (calculatePercentageBasedStaleAnalysis u n p c t).is_stale = true
      ↔ specPercentSoldPerMonth u n p c < t := by
  unfold calculatePercentageBasedStaleAnalysis specPercentSoldPerMonth specMonthsLive
  unfold MILLISECONDS_PER_DAY DAYS_PER_MONTH MINIMUM_MONTHS_LIVE
  simp [div_div]

/-! # Theorems for the claims -/

/-- Claim C1: for every call to the percentage-based stale analysis with units
sold `u`, total inventory added `n`, publish date `p`, evaluation date `c` and
threshold percent `t`, the classification follows
`months_live = max(ceil((c-p)/1day)/30, 0.033)`,
`percent_sold_per_month = ((u/months_live)/n)*100` when `n > 0` and `0` when
`n = 0`, and `is_stale = percent_sold_per_month < t`; in particular when
`n = 0` the variant is stale iff `t > 0`.  (The returned record's numeric
fields are additionally rounded to 2 decimals, as in the source.) -/
theorem claim1_percentage_stale_analysis (u n p c t : ℚ) :
    ((calculatePercentageBasedStaleAnalysis u n p c t).is_stale = true
      ↔ specPercentSoldPerMonth u n p c < t)
    ∧ (calculatePercentageBasedStaleAnalysis u n p c t).months_live
        = round2 (specMonthsLive p c)
    ∧ (calculatePercentageBasedStaleAnalysis u n p c t).percent_sold_per_month
        = round2 (specPercentSoldPerMonth u n p c)
    ∧ (n = 0 →
        ((calculatePercentageBasedStaleAnalysis u n p c t).is_stale = true ↔ 0 < t)) := by
  refine ⟨is_stale_iff u n p c t, ?_, ?_, ?_⟩
  · unfold calculatePercentageBasedStaleAnalysis specMonthsLive
    unfold MILLISECONDS_PER_DAY DAYS_PER_MONTH MINIMUM_MONTHS_LIVE
    rfl
  · unfold calculatePercentageBasedStaleAnalysis specPercentSoldPerMonth specMonthsLive
    unfold MILLISECONDS_PER_DAY DAYS_PER_MONTH MINIMUM_MONTHS_LIVE
    simp [div_div]
  · rintro rfl
    rw [is_stale_iff]
    unfold specPercentSoldPerMonth
    simp

/-- Witness for C1 at `u = 5, n = 0, p = 0, c = 0, t = 10` (zero inventory,
positive threshold: stale). -/
theorem claim1_percentage_stale_analysis_witness :
    (calculatePercentageBasedStaleAnalysis 5 0 0 0 10).is_stale = true :=
  ((claim1_percentage_stale_analysis 5 0 0 0 10).2.2.2 rfl).2 (by norm_num)

/-- Claim C2: staleness is monotone: (1) `is_stale` is non-decreasing in the
threshold (for fixed sales data, once stale at `t1`, still stale at any
`t2 ≥ t1`); (2) with estimated total inventory = current inventory + units
sold as in the pipeline, increasing units sold never turns `is_stale` from
false to true (on the physical domain of non-negative inventory and sales). -/
theorem claim2_staleness_monotone :
    (∀ u n p c t1 t2 : ℚ, t1 ≤ t2 →
      (calculatePercentageBasedStaleAnalysis u n p c t1).is_stale = true →
      (calculatePercentageBasedStaleAnalysis u n p c t2).is_stale = true)
    ∧ (∀ inv p c t u1 u2 : ℚ, 0 ≤ inv → 0 ≤ u1 → u1 ≤ u2 →
      (calculatePercentageBasedStaleAnalysis u2 (inv + u2) p c t).is_stale = true →
      (calculatePercentageBasedStaleAnalysis u1 (inv + u1) p c t).is_stale = true) := by
  constructor
  · intro u n p c t1 t2 h12 h1
    exact (is_stale_iff u n p c t2).mpr
      (lt_of_lt_of_le ((is_stale_iff u n p c t1).mp h1) h12)
  · intro inv p c t u1 u2 hinv hu1 h12 h2
    exact (is_stale_iff u1 (inv + u1) p c t).mpr
      (lt_of_le_of_lt (specPercent_mono_units inv p c u1 u2 hinv hu1 h12)
        ((is_stale_iff u2 (inv + u2) p c t).mp h2))

/-- Witness for C2: thresholds 3 ≤ 7 on a stale input, and units 1 ≤ 2 with
inventory 98 over a 30-day window. -/
theorem claim2_staleness_monotone_witness :
    (calculatePercentageBasedStaleAnalysis 0 10 0 86400000 7).is_stale = true
    ∧ (calculatePercentageBasedStaleAnalysis 1 (98 + 1) 0 (30 * 86400000) 5).is_stale = true :=
  ⟨claim2_staleness_monotone.1 0 10 0 86400000 3 7 (by norm_num)
     (by norm_num [calculatePercentageBasedStaleAnalysis, jsCeil, MILLISECONDS_PER_DAY,
        DAYS_PER_MONTH, MINIMUM_MONTHS_LIVE, max_def]),
   claim2_staleness_monotone.2 98 0 (30 * 86400000) 5 1 2 (by norm_num) (by norm_num)
     (by norm_num)
     (by norm_num [calculatePercentageBasedStaleAnalysis, jsCeil, MILLISECONDS_PER_DAY,
        DAYS_PER_MONTH, MINIMUM_MONTHS_LIVE, max_def])⟩

/-! ## Suggestion-list characterizations -/

theorem inventorySuggestions_types (inv d : ℚ) :
    (inventorySuggestions inv d).map (·.type) =
      if inv = 0 then [.CRITICAL_INVENTORY]
      else if d ≤ 7 then [.LOW_INVENTORY]
      else if d ≤ 30 then [.INVENTORY_WARNING]
      else if d > 180 then [.OVERSTOCK]
      else [] := by
  unfold inventorySuggestions
  split_ifs <;> rfl

theorem performanceSuggestions_types (r t : ℚ) :
    (performanceSuggestions r t).map (·.type) =
      if r = 0 then [.NO_SALES]
      else if r < t * (3/10) then [.POOR_PERFORMANCE]
      else if r < t then [.BELOW_TARGET]
      else if r ≥ t * 2 then [.HIGH_PERFORMER]
      else [] := by
  unfold performanceSuggestions
  split_ifs <;> rfl

theorem trendSuggestions_types (acc : ℚ) :
    (trendSuggestions acc).map (·.type) =
      if acc < -(3/10) then [.DECLINING_TREND]
      else if acc > 3/10 then [.POSITIVE_MOMENTUM]
      else [] := by
  unfold trendSuggestions
  split_ifs <;> rfl

theorem pricingSuggestions_types (price r t : ℚ) :
    (pricingSuggestions price r t).map (·.type) =
      if r ≥ t ∧ price > 0 then [.PRICING_OPPORTUNITY] else [] := by
  unfold pricingSuggestions
  split_ifs <;> rfl

theorem seasonalSuggestions_types (seas : ℚ) :
    (seasonalSuggestions seas).map (·.type) =
      if seas > 1/2 then [.SEASONAL_PLANNING] else [] := by
  unfold seasonalSuggestions
  split_ifs <;> rfl

theorem bundlingSuggestions_types (r t rev : ℚ) :
    (bundlingSuggestions r t rev).map (·.type) =
      if r < t ∧ rev > 0 then [.BUNDLING_OPPORTUNITY] else [] := by
  unfold bundlingSuggestions
  split_ifs <;> rfl

/-- The list of suggestion type tags emitted by `generateVariantSuggestions`,
as the concatenation of the six rule blocks. -/
theorem generateVariantSuggestions_types (price r t inv d rev acc seas : ℚ) :
    (generateVariantSuggestions price r t inv d rev acc seas).suggestions.map (·.type) =
      (inventorySuggestions inv d).map (·.type) ++
      (performanceSuggestions r t).map (·.type) ++
      (trendSuggestions acc).map (·.type) ++
      (pricingSuggestions price r t).map (·.type) ++
      (seasonalSuggestions seas).map (·.type) ++
      (bundlingSuggestions r t rev).map (·.type) := by
  unfold generateVariantSuggestions
  simp [List.map_append]

theorem not_perf_of_mem_inventory {inv d : ℚ} {x : SuggestionType}
    (h : x ∈ (inventorySuggestions inv d).map (·.type)) :
    isPerformanceSuggestionType x = false := by
  rw [inventorySuggestions_types] at h
  split_ifs at h <;> simp at h <;> subst h <;> rfl

theorem not_perf_of_mem_trend {acc : ℚ} {x : SuggestionType}
    (h : x ∈ (trendSuggestions acc).map (·.type)) :
    isPerformanceSuggestionType x = false := by
  rw [trendSuggestions_types] at h
  split_ifs at h <;> simp at h <;> subst h <;> rfl

theorem not_perf_of_mem_pricing {price r t : ℚ} {x : SuggestionType}
    (h : x ∈ (pricingSuggestions price r t).map (·.type)) :
    isPerformanceSuggestionType x = false := by
  rw [pricingSuggestions_types] at h
  split_ifs at h <;> simp at h <;> subst h <;> rfl

theorem not_perf_of_mem_seasonal {seas : ℚ} {x : SuggestionType}
    (h : x ∈ (seasonalSuggestions seas).map (·.type)) :
    isPerformanceSuggestionType x = false := by
  rw [seasonalSuggestions_types] at h
  split_ifs at h <;> simp at h <;> subst h <;> rfl

theorem not_perf_of_mem_bundling {r t rev : ℚ} {x : SuggestionType}
    (h : x ∈ (bundlingSuggestions r t rev).map (·.type)) :
    isPerformanceSuggestionType x = false := by
  rw [bundlingSuggestions_types] at h
  split_ifs at h <;> simp at h <;> subst h <;> rfl

/-- A performance tag occurs in the full suggestion output iff it occurs in
the performance rule block. -/
theorem mem_types_iff_mem_perf (price r t inv d rev acc seas : ℚ) (x : SuggestionType)
    (hx : isPerformanceSuggestionType x = true) :
    (x ∈ (generateVariantSuggestions price r t inv d rev acc seas).suggestions.map (·.type))
      ↔ x ∈ (performanceSuggestions r t).map (·.type) := by
  rw [generateVariantSuggestions_types]
  simp only [List.mem_append]
  constructor
  · rintro (((((h | h) | h) | h) | h) | h)
    · exact absurd hx (by simp [not_perf_of_mem_inventory h])
    · exact h
    · exact absurd hx (by simp [not_perf_of_mem_trend h])
    · exact absurd hx (by simp [not_perf_of_mem_pricing h])
    · exact absurd hx (by simp [not_perf_of_mem_seasonal h])
    · exact absurd hx (by simp [not_perf_of_mem_bundling h])
  · intro h
    exact Or.inl (Or.inl (Or.inl (Or.inl (Or.inr h))))

theorem countP_perf_inventory (inv d : ℚ) :
    ((inventorySuggestions inv d).map (·.type)).countP isPerformanceSuggestionType = 0 := by
  rw [inventorySuggestions_types]
  split_ifs <;> rfl

theorem countP_perf_perf (r t : ℚ) :
    ((performanceSuggestions r t).map (·.type)).countP isPerformanceSuggestionType ≤ 1 := by
  rw [performanceSuggestions_types]
  split_ifs <;> decide

theorem countP_perf_trend (acc : ℚ) :
    ((trendSuggestions acc).map (·.type)).countP isPerformanceSuggestionType = 0 := by
  rw [trendSuggestions_types]
  split_ifs <;> rfl

theorem countP_perf_pricing (price r t : ℚ) :
    ((pricingSuggestions price r t).map (·.type)).countP isPerformanceSuggestionType = 0 := by
  rw [pricingSuggestions_types]
  split_ifs <;> rfl

theorem countP_perf_seasonal (seas : ℚ) :
    ((seasonalSuggestions seas).map (·.type)).countP isPerformanceSuggestionType = 0 := by
  rw [seasonalSuggestions_types]
  split_ifs <;> rfl

theorem countP_perf_bundling (r t rev : ℚ) :
    ((bundlingSuggestions r t rev).map (·.type)).countP isPerformanceSuggestionType = 0 := by
  rw [bundlingSuggestions_types]
  split_ifs <;> rfl

/-- Claim C3: the performance rule of the suggestion engine, for monthly sales
rate `r ≥ 0` (as produced by the pipeline) and stale threshold `t > 0`: at
most one of the four performance suggestions appears, and exactly per the case
split `NO_SALES ↔ r = 0`, `POOR_PERFORMANCE ↔ 0 < r < 0.3t`,
`BELOW_TARGET ↔ 0.3t ≤ r < t`, `HIGH_PERFORMER ↔ r ≥ 2t`, and no performance
suggestion at all when `t ≤ r < 2t`. -/
theorem claim3_performance_rule (price r t inv d rev acc seas : ℚ)
    (hr : 0 ≤ r) (ht : 0 < t) :
    (((generateVariantSuggestions price r t inv d rev acc seas).suggestions.map
        (·.type)).countP isPerformanceSuggestionType ≤ 1)
    ∧ (.NO_SALES ∈ (generateVariantSuggestions price r t inv d rev acc seas).suggestions.map
        (·.type) ↔ r = 0)
    ∧ (.POOR_PERFORMANCE ∈ (generateVariantSuggestions price r t inv d rev acc
        seas).suggestions.map (·.type) ↔ 0 < r ∧ r < 3/10 * t)
    ∧ (.BELOW_TARGET ∈ (generateVariantSuggestions price r t inv d rev acc
        seas).suggestions.map (·.type) ↔ 3/10 * t ≤ r ∧ r < t)
    ∧ (.HIGH_PERFORMER ∈ (generateVariantSuggestions price r t inv d rev acc
        seas).suggestions.map (·.type) ↔ r ≥ 2 * t)
    ∧ (t ≤ r ∧ r < 2 * t →
        ¬ (∃ x ∈ (generateVariantSuggestions price r t inv d rev acc
          seas).suggestions.map (·.type), isPerformanceSuggestionType x = true)) := by
  have hNO := mem_types_iff_mem_perf price r t inv d rev acc seas .NO_SALES rfl
  have hPO := mem_types_iff_mem_perf price r t inv d rev acc seas .POOR_PERFORMANCE rfl
  have hBE := mem_types_iff_mem_perf price r t inv d rev acc seas .BELOW_TARGET rfl
  have hHI := mem_types_iff_mem_perf price r t inv d rev acc seas .HIGH_PERFORMER rfl
  refine ⟨?_, ?_, ?_, ?_, ?_, ?_⟩
  · rw [generateVariantSuggestions_types]
    simp only [List.countP_append]
    have h1 := countP_perf_inventory inv d
    have h2 := countP_perf_perf r t
    have h3 := countP_perf_trend acc
    have h4 := countP_perf_pricing price r t
    have h5 := countP_perf_seasonal seas
    have h6 := countP_perf_bundling r t rev
    omega
  · rw [hNO, performanceSuggestions_types]
    split_ifs with h1 h2 h3 h4
    · exact iff_of_true (by simp) h1
    · exact iff_of_false (by simp) h1
    · exact iff_of_false (by simp) h1
    · exact iff_of_false (by simp) h1
    · exact iff_of_false (by simp) h1
  · rw [hPO, performanceSuggestions_types]
    split_ifs with h1 h2 h3 h4
    · exact iff_of_false (by simp) (fun hc => by linarith [hc.1])
    · exact iff_of_true (by simp) ⟨lt_of_le_of_ne hr (Ne.symm h1), by linarith⟩
    · exact iff_of_false (by simp) (fun hc => by have := not_lt.mp h2; linarith [hc.2])
    · exact iff_of_false (by simp) (fun hc => by have := not_lt.mp h2; linarith [hc.2])
    · exact iff_of_false (by simp) (fun hc => by have := not_lt.mp h2; linarith [hc.2])
  · rw [hBE, performanceSuggestions_types]
    split_ifs with h1 h2 h3 h4
    · exact iff_of_false (by simp) (fun hc => by rw [h1] at hc; linarith [hc.1])
    · exact iff_of_false (by simp) (fun hc => by linarith [hc.1])
    · exact iff_of_true (by simp) ⟨by have := not_lt.mp h2; linarith, h3⟩
    · exact iff_of_false (by simp) (fun hc => by have := not_lt.mp h3; linarith [hc.2])
    · exact iff_of_false (by simp) (fun hc => by have := not_lt.mp h3; linarith [hc.2])
  · rw [hHI, performanceSuggestions_types]
    split_ifs with h1 h2 h3 h4
    · exact iff_of_false (by simp) (fun hc => by rw [h1] at hc; linarith)
    · exact iff_of_false (by simp) (fun hc => by linarith)
    · exact iff_of_false (by simp) (fun hc => by linarith)
    · exact iff_of_true (by simp) (by linarith)
    · exact iff_of_false (by simp) (fun hc => by have := not_le.mp h4; linarith)
  · rintro ⟨hrt, hr2t⟩ ⟨x, hxmem, hx⟩
    rw [mem_types_iff_mem_perf price r t inv d rev acc seas x hx,
      performanceSuggestions_types] at hxmem
    split_ifs at hxmem with h1 h2 h3 h4
    · linarith [h1 ▸ hrt]
    · linarith
    · linarith
    · linarith
    · simp at hxmem

theorem not_inv_of_mem_perf {r t : ℚ} {x : SuggestionType}
    (h : x ∈ (performanceSuggestions r t).map (·.type)) :
    isInventorySuggestionType x = false := by
  rw [performanceSuggestions_types] at h
  split_ifs at h <;> simp at h <;> subst h <;> rfl

theorem not_inv_of_mem_trend {acc : ℚ} {x : SuggestionType}
    (h : x ∈ (trendSuggestions acc).map (·.type)) :
    isInventorySuggestionType x = false := by
  rw [trendSuggestions_types] at h
  split_ifs at h <;> simp at h <;> subst h <;> rfl

theorem not_inv_of_mem_pricing {price r t : ℚ} {x : SuggestionType}
    (h : x ∈ (pricingSuggestions price r t).map (·.type)) :
    isInventorySuggestionType x = false := by
  rw [pricingSuggestions_types] at h
  split_ifs at h <;> simp at h <;> subst h <;> rfl

theorem not_inv_of_mem_seasonal {seas : ℚ} {x : SuggestionType}
    (h : x ∈ (seasonalSuggestions seas).map (·.type)) :
    isInventorySuggestionType x = false := by
  rw [seasonalSuggestions_types] at h
  split_ifs at h <;> simp at h <;> subst h <;> rfl

theorem not_inv_of_mem_bundling {r t rev : ℚ} {x : SuggestionType}
    (h : x ∈ (bundlingSuggestions r t rev).map (·.type)) :
    isInventorySuggestionType x = false := by
  rw [bundlingSuggestions_types] at h
  split_ifs at h <;> simp at h <;> subst h <;> rfl

/-- An inventory tag occurs in the full suggestion output iff it occurs in the
inventory rule block. -/
theorem mem_types_iff_mem_inv (price r t inv d rev acc seas : ℚ) (x : SuggestionType)
    (hx : isInventorySuggestionType x = true) :
    (x ∈ (generateVariantSuggestions price r t inv d rev acc seas).suggestions.map (·.type))
      ↔ x ∈ (inventorySuggestions inv d).map (·.type) := by
  rw [generateVariantSuggestions_types]
  simp only [List.mem_append]
  constructor
  · rintro (((((h | h) | h) | h) | h) | h)
    · exact h
    · exact absurd hx (by simp [not_inv_of_mem_perf h])
    · exact absurd hx (by simp [not_inv_of_mem_trend h])
    · exact absurd hx (by simp [not_inv_of_mem_pricing h])
    · exact absurd hx (by simp [not_inv_of_mem_seasonal h])
    · exact absurd hx (by simp [not_inv_of_mem_bundling h])
  · intro h
    exact Or.inl (Or.inl (Or.inl (Or.inl (Or.inl h))))

theorem countP_inv_inventory (inv d : ℚ) :
    ((inventorySuggestions inv d).map (·.type)).countP isInventorySuggestionType ≤ 1 := by
  rw [inventorySuggestions_types]
  split_ifs <;> decide

theorem countP_inv_perf (r t : ℚ) :
    ((performanceSuggestions r t).map (·.type)).countP isInventorySuggestionType = 0 := by
  rw [performanceSuggestions_types]
  split_ifs <;> rfl

theorem countP_inv_trend (acc : ℚ) :
    ((trendSuggestions acc).map (·.type)).countP isInventorySuggestionType = 0 := by
  rw [trendSuggestions_types]
  split_ifs <;> rfl

theorem countP_inv_pricing (price r t : ℚ) :
    ((pricingSuggestions price r t).map (·.type)).countP isInventorySuggestionType = 0 := by
  rw [pricingSuggestions_types]
  split_ifs <;> rfl

theorem countP_inv_seasonal (seas : ℚ) :
    ((seasonalSuggestions seas).map (·.type)).countP isInventorySuggestionType = 0 := by
  rw [seasonalSuggestions_types]
  split_ifs <;> rfl

theorem countP_inv_bundling (r t rev : ℚ) :
    ((bundlingSuggestions r t rev).map (·.type)).countP isInventorySuggestionType = 0 := by
  rw [bundlingSuggestions_types]
  split_ifs <;> rfl

/-- `getSimpleInventoryStatus` partitions its input plane into the six labels:
each label holds exactly on the stated region. -/
theorem getSimpleInventoryStatus_spec (dd ss : ℚ) :
    (getSimpleInventoryStatus dd ss = .OUT_OF_STOCK ↔ ss = 0)
    ∧ (getSimpleInventoryStatus dd ss = .CRITICAL_LOW ↔ ss ≠ 0 ∧ dd ≤ 7)
    ∧ (getSimpleInventoryStatus dd ss = .LOW ↔ ss ≠ 0 ∧ 7 < dd ∧ dd ≤ 30)
    ∧ (getSimpleInventoryStatus dd ss = .OPTIMAL ↔ ss ≠ 0 ∧ 30 < dd ∧ dd ≤ 90)
    ∧ (getSimpleInventoryStatus dd ss = .HIGH ↔ ss ≠ 0 ∧ 90 < dd ∧ dd ≤ 180)
    ∧ (getSimpleInventoryStatus dd ss = .OVERSTOCKED ↔ ss ≠ 0 ∧ 180 < dd) := by
  unfold getSimpleInventoryStatus
  split_ifs with h1 h2 h3 h4 h5
  · exact ⟨iff_of_true rfl h1,
      iff_of_false (by simp) (fun hc => hc.1 h1),
      iff_of_false (by simp) (fun hc => hc.1 h1),
      iff_of_false (by simp) (fun hc => hc.1 h1),
      iff_of_false (by simp) (fun hc => hc.1 h1),
      iff_of_false (by simp) (fun hc => hc.1 h1)⟩
  · exact ⟨iff_of_false (by simp) h1,
      iff_of_true rfl ⟨h1, h2⟩,
      iff_of_false (by simp) (fun hc => by linarith [hc.2.1]),
      iff_of_false (by simp) (fun hc => by linarith [hc.2.1]),
      iff_of_false (by simp) (fun hc => by linarith [hc.2.1]),
      iff_of_false (by simp) (fun hc => by linarith [hc.2])⟩
  · exact ⟨iff_of_false (by simp) h1,
      iff_of_false (by simp) (fun hc => by linarith [hc.2, not_le.mp h2]),
      iff_of_true rfl ⟨h1, not_le.mp h2, h3⟩,
      iff_of_false (by simp) (fun hc => by linarith [hc.2.1]),
      iff_of_false (by simp) (fun hc => by linarith [hc.2.1]),
      iff_of_false (by simp) (fun hc => by linarith [hc.2])⟩
  · exact ⟨iff_of_false (by simp) h1,
      iff_of_false (by simp) (fun hc => by linarith [hc.2, not_le.mp h3]),
      iff_of_false (by simp) (fun hc => by linarith [hc.2.2, not_le.mp h3]),
      iff_of_true rfl ⟨h1, not_le.mp h3, h4⟩,
      iff_of_false (by simp) (fun hc => by linarith [hc.2.1]),
      iff_of_false (by simp) (fun hc => by linarith [hc.2])⟩
  · exact ⟨iff_of_false (by simp) h1,
      iff_of_false (by simp) (fun hc => by linarith [hc.2, not_le.mp h4]),
      iff_of_false (by simp) (fun hc => by linarith [hc.2.2, not_le.mp h4]),
      iff_of_false (by simp) (fun hc => by linarith [hc.2.2, not_le.mp h4]),
      iff_of_true rfl ⟨h1, not_le.mp h4, h5⟩,
      iff_of_false (by simp) (fun hc => by linarith [hc.2])⟩
  · exact ⟨iff_of_false (by simp) h1,
      iff_of_false (by simp) (fun hc => by linarith [hc.2, not_le.mp h5]),
      iff_of_false (by simp) (fun hc => by linarith [hc.2.2, not_le.mp h5]),
      iff_of_false (by simp) (fun hc => by linarith [hc.2.2, not_le.mp h5]),
      iff_of_false (by simp) (fun hc => by linarith [hc.2.2, not_le.mp h5]),
      iff_of_true rfl ⟨h1, not_le.mp h5⟩⟩

/-- Claim C4: the inventory rule of the suggestion engine, for current stock
`s ≥ 0` and days-of-stock `d`: at most one of the four inventory suggestions
appears, and exactly per `CRITICAL_INVENTORY ↔ s = 0`,
`LOW_INVENTORY ↔ s > 0 ∧ d ≤ 7`, `INVENTORY_WARNING ↔ s > 0 ∧ 7 < d ≤ 30`,
`OVERSTOCK ↔ s > 0 ∧ d > 180`, silent for `s > 0 ∧ 30 < d ≤ 180`; and
`getSimpleInventoryStatus` is a total mutually exclusive partition into the
six labels. -/
theorem claim4_inventory_rule (price r t s d rev acc seas : ℚ) (hs : 0 ≤ s) :
    (((generateVariantSuggestions price r t s d rev acc seas).suggestions.map
        (·.type)).countP isInventorySuggestionType ≤ 1)
    ∧ (.CRITICAL_INVENTORY ∈ (generateVariantSuggestions price r t s d rev acc
        seas).suggestions.map (·.type) ↔ s = 0)
    ∧ (.LOW_INVENTORY ∈ (generateVariantSuggestions price r t s d rev acc
        seas).suggestions.map (·.type) ↔ 0 < s ∧ d ≤ 7)
    ∧ (.INVENTORY_WARNING ∈ (generateVariantSuggestions price r t s d rev acc
        seas).suggestions.map (·.type) ↔ 0 < s ∧ 7 < d ∧ d ≤ 30)
    ∧ (.OVERSTOCK ∈ (generateVariantSuggestions price r t s d rev acc
        seas).suggestions.map (·.type) ↔ 0 < s ∧ 180 < d)
    ∧ ((0 < s ∧ 30 < d ∧ d ≤ 180) →
        ¬ (∃ x ∈ (generateVariantSuggestions price r t s d rev acc
          seas).suggestions.map (·.type), isInventorySuggestionType x = true))
    ∧ (∀ dd ss : ℚ,
        (getSimpleInventoryStatus dd ss = .OUT_OF_STOCK ↔ ss = 0)
        ∧ (getSimpleInventoryStatus dd ss = .CRITICAL_LOW ↔ ss ≠ 0 ∧ dd ≤ 7)
        ∧ (getSimpleInventoryStatus dd ss = .LOW ↔ ss ≠ 0 ∧ 7 < dd ∧ dd ≤ 30)
        ∧ (getSimpleInventoryStatus dd ss = .OPTIMAL ↔ ss ≠ 0 ∧ 30 < dd ∧ dd ≤ 90)
        ∧ (getSimpleInventoryStatus dd ss = .HIGH ↔ ss ≠ 0 ∧ 90 < dd ∧ dd ≤ 180)
        ∧ (getSimpleInventoryStatus dd ss = .OVERSTOCKED ↔ ss ≠ 0 ∧ 180 < dd)) := by
  have hCR := mem_types_iff_mem_inv price r t s d rev acc seas .CRITICAL_INVENTORY rfl
  have hLO := mem_types_iff_mem_inv price r t s d rev acc seas .LOW_INVENTORY rfl
  have hWA := mem_types_iff_mem_inv price r t s d rev acc seas .INVENTORY_WARNING rfl
  have hOV := mem_types_iff_mem_inv price r t s d rev acc seas .OVERSTOCK rfl
  refine ⟨?_, ?_, ?_, ?_, ?_, ?_, getSimpleInventoryStatus_spec⟩
  · rw [generateVariantSuggestions_types]
    simp only [List.countP_append]
    have h1 := countP_inv_inventory s d
    have h2 := countP_inv_perf r t
    have h3 := countP_inv_trend acc
    have h4 := countP_inv_pricing price r t
    have h5 := countP_inv_seasonal seas
    have h6 := countP_inv_bundling r t rev
    omega
  · rw [hCR, inventorySuggestions_types]
    split_ifs with h1 h2 h3 h4
    · exact iff_of_true (by simp) h1
    · exact iff_of_false (by simp) h1
    · exact iff_of_false (by simp) h1
    · exact iff_of_false (by simp) h1
    · exact iff_of_false (by simp) h1
  · rw [hLO, inventorySuggestions_types]
    split_ifs with h1 h2 h3 h4
    · exact iff_of_false (by simp) (fun hc => by linarith [hc.1])
    · exact iff_of_true (by simp) ⟨lt_of_le_of_ne hs (Ne.symm h1), h2⟩
    · exact iff_of_false (by simp) (fun hc => by linarith [hc.2, not_le.mp h2])
    · exact iff_of_false (by simp) (fun hc => by linarith [hc.2, not_le.mp h2])
    · exact iff_of_false (by simp) (fun hc => by linarith [hc.2, not_le.mp h2])
  · rw [hWA, inventorySuggestions_types]
    split_ifs with h1 h2 h3 h4
    · exact iff_of_false (by simp) (fun hc => by linarith [hc.1])
    · exact iff_of_false (by simp) (fun hc => by linarith [hc.2.1])
    · exact iff_of_true (by simp) ⟨lt_of_le_of_ne hs (Ne.symm h1), not_le.mp h2, h3⟩
    · exact iff_of_false (by simp) (fun hc => by linarith [hc.2.2, not_le.mp h3])
    · exact iff_of_false (by simp) (fun hc => by linarith [hc.2.2, not_le.mp h3])
  · rw [hOV, inventorySuggestions_types]
    split_ifs with h1 h2 h3 h4
    · exact iff_of_false (by simp) (fun hc => by linarith [hc.1])
    · exact iff_of_false (by simp) (fun hc => by linarith [hc.2])
    · exact iff_of_false (by simp) (fun hc => by linarith [hc.2])
    · exact iff_of_true (by simp) ⟨lt_of_le_of_ne hs (Ne.symm h1), h4⟩
    · exact iff_of_false (by simp) (fun hc => by linarith [hc.2, not_lt.mp h4])
  · rintro ⟨hspos, hd30, hd180⟩ ⟨x, hxmem, hx⟩
    rw [mem_types_iff_mem_inv price r t s d rev acc seas x hx,
      inventorySuggestions_types] at hxmem
    split_ifs at hxmem with h1 h2 h3 h4
    · linarith [h1 ▸ hspos]
    · linarith
    · linarith
    · linarith
    · simp at hxmem

/-- Witness for C3 at `r = 5, t = 10` (the spec's worked example rate):
`0.3·10 ≤ 5 < 10` fires `BELOW_TARGET`. -/
theorem claim3_performance_rule_witness :
    .BELOW_TARGET ∈ (generateVariantSuggestions 20 5 10 50 100 200 0
      0).suggestions.map (·.type) :=
  (claim3_performance_rule 20 5 10 50 100 200 0 0 (by norm_num)
    (by norm_num)).2.2.2.1.mpr ⟨by norm_num, by norm_num⟩

/-- Witness for C4 at `s = 50, d = 100` (inside the silent 30–180 band):
no inventory suggestion fires. -/
theorem claim4_inventory_rule_witness :
    ¬ (∃ x ∈ (generateVariantSuggestions 20 5 10 50 100 200 0
      0).suggestions.map (·.type), isInventorySuggestionType x = true) :=
  (claim4_inventory_rule 20 5 10 50 100 200 0 0
    (by norm_num)).2.2.2.2.2.1 ⟨by norm_num, by norm_num, by norm_num⟩

/-! ## Pricing rule (C7) -/

theorem suggestions_eq_append (price r t inv d rev acc seas : ℚ) :
    (generateVariantSuggestions price r t inv d rev acc seas).suggestions =
      inventorySuggestions inv d ++ performanceSuggestions r t ++
      trendSuggestions acc ++ pricingSuggestions price r t ++
      seasonalSuggestions seas ++ bundlingSuggestions r t rev := rfl

theorem perf_of_mem_perfSeg {r t : ℚ} {x : SuggestionType}
    (h : x ∈ (performanceSuggestions r t).map (·.type)) :
    isPerformanceSuggestionType x = true := by
  rw [performanceSuggestions_types] at h
  split_ifs at h <;> simp at h <;> subst h <;> rfl

theorem inv_of_mem_invSeg {inv d : ℚ} {x : SuggestionType}
    (h : x ∈ (inventorySuggestions inv d).map (·.type)) :
    isInventorySuggestionType x = true := by
  rw [inventorySuggestions_types] at h
  split_ifs at h <;> simp at h <;> subst h <;> rfl

theorem mem_trendSeg_tags {acc : ℚ} {x : SuggestionType}
    (h : x ∈ (trendSuggestions acc).map (·.type)) :
    x = .DECLINING_TREND ∨ x = .POSITIVE_MOMENTUM := by
  rw [trendSuggestions_types] at h
  split_ifs at h <;> simp at h <;> simp [h]

theorem mem_seasonalSeg_tags {seas : ℚ} {x : SuggestionType}
    (h : x ∈ (seasonalSuggestions seas).map (·.type)) :
    x = .SEASONAL_PLANNING := by
  rw [seasonalSuggestions_types] at h
  split_ifs at h <;> simp at h
  exact h

theorem mem_bundlingSeg_tags {r t rev : ℚ} {x : SuggestionType}
    (h : x ∈ (bundlingSuggestions r t rev).map (·.type)) :
    x = .BUNDLING_OPPORTUNITY := by
  rw [bundlingSuggestions_types] at h
  split_ifs at h <;> simp at h
  exact h

/-- The `PRICING_OPPORTUNITY` tag occurs in the full output iff the pricing
rule's condition holds. -/
theorem mem_types_pricing_iff (price r t inv d rev acc seas : ℚ) :
    (.PRICING_OPPORTUNITY ∈ (generateVariantSuggestions price r t inv d rev acc
      seas).suggestions.map (·.type)) ↔ (r ≥ t ∧ price > 0) := by
  rw [generateVariantSuggestions_types]
  simp only [List.mem_append]
  constructor
  · rintro (((((h | h) | h) | h) | h) | h)
    · exact absurd (inv_of_mem_invSeg h) (by decide)
    · exact absurd (perf_of_mem_perfSeg h) (by decide)
    · rcases mem_trendSeg_tags h with h1 | h1 <;> exact absurd h1 (by decide)
    · rw [pricingSuggestions_types] at h
      split_ifs at h with hc
      · exact hc
      · simp at h
    · exact absurd (mem_seasonalSeg_tags h) (by decide)
    · exact absurd (mem_bundlingSeg_tags h) (by decide)
  · intro hc
    refine Or.inl (Or.inl (Or.inr ?_))
    rw [pricingSuggestions_types, if_pos hc]
    simp

/-- Every `PRICING_OPPORTUNITY` suggestion in the output carries the code's
displayed price `round2(price + round2(price · 0.15))`. -/
theorem pricing_proposedPrice (price r t inv d rev acc seas : ℚ) :
    ∀ s ∈ (generateVariantSuggestions price r t inv d rev acc seas).suggestions,
      s.type = .PRICING_OPPORTUNITY →
      s.proposedPrice = some (round2 (price + round2 (price * (15/100)))) := by
  intro s hs hstype
  rw [suggestions_eq_append] at hs
  simp only [List.mem_append] at hs
  rcases hs with (((((h | h) | h) | h) | h) | h)
  · have hm : s.type ∈ (inventorySuggestions inv d).map (·.type) :=
      List.mem_map_of_mem _ h
    exact absurd (inv_of_mem_invSeg hm) (by rw [hstype]; decide)
  · have hm : s.type ∈ (performanceSuggestions r t).map (·.type) :=
      List.mem_map_of_mem _ h
    exact absurd (perf_of_mem_perfSeg hm) (by rw [hstype]; decide)
  · have hm : s.type ∈ (trendSuggestions acc).map (·.type) :=
      List.mem_map_of_mem _ h
    rcases mem_trendSeg_tags hm with h1 | h1 <;> rw [hstype] at h1 <;> exact absurd h1 (by simp)
  · unfold pricingSuggestions at h
    split_ifs at h
    · simp at h
      rw [h]
    · simp at h
  · have hm : s.type ∈ (seasonalSuggestions seas).map (·.type) :=
      List.mem_map_of_mem _ h
    have h1 := mem_seasonalSeg_tags hm
    rw [hstype] at h1
    exact absurd h1 (by simp)
  · have hm : s.type ∈ (bundlingSuggestions r t rev).map (·.type) :=
      List.mem_map_of_mem _ h
    have h1 := mem_bundlingSeg_tags hm
    rw [hstype] at h1
    exact absurd h1 (by simp)

/-- For a price that is a whole number of cents, the code's
`price + round2(price·0.15)` agrees at output rounding with the spec's
`round2(price·1.15)`. -/
theorem round2_cents_pricing (m : ℤ) :
    round2 (((m : ℚ)/100) + round2 (((m : ℚ)/100) * (15/100)))
      = round2 (((m : ℚ)/100) * (115/100)) := by
  unfold round2 jsRound
  have e1 : ((m : ℚ)/100 * (15/100)) * 100 = (m : ℚ) * (15/100) := by ring
  rw [e1]
  set k : ℤ := ⌊(m : ℚ) * (15/100) + 1/2⌋ with hk
  have e2 : ((m : ℚ)/100 + (k : ℚ)/100) * 100 = (m : ℚ) + (k : ℚ) := by ring
  rw [e2]
  have e3 : (m : ℚ) + (k : ℚ) + 1/2 = ((m + k : ℤ) : ℚ) + 1/2 := by push_cast; ring
  have e4 : ⌊(m : ℚ) + (k : ℚ) + 1/2⌋ = m + k := by
    rw [e3, Int.floor_int_add]
    norm_num
  have e5 : ((m : ℚ)/100 * (115/100)) * 100 = (m : ℚ) + ((m : ℚ) * (15/100)) := by ring
  have e6 : ⌊(m : ℚ) + ((m : ℚ) * (15/100)) + 1/2⌋ = m + k := by
    rw [add_assoc, Int.floor_int_add, hk]
  rw [e4, e5, e6]

/-- Claim C7 counterexample: at `price = 0.0045` (with rate ≥ threshold so the
rule fires), the suggestion's displayed price is `0.00`, while
`price × 1.15` rounded half-up to 2 decimals is `0.01`: the claim's stated
output value is wrong for prices that are not whole cents. -/
theorem claim7_counterexample :
    (∃ s ∈ (generateVariantSuggestions (9/2000) 1 1 50 100 0 0 0).suggestions,
      s.type = .PRICING_OPPORTUNITY ∧ s.proposedPrice = some 0)
    ∧ round2 ((9/2000) * (115/100)) = 1/100
    ∧ ((0 : ℚ) ≠ 1/100) := by
  have h15 : round2 ((9/2000 : ℚ) * (15/100)) = 0 := by norm_num [round2, jsRound]
  have hdisp : round2 ((9/2000 : ℚ) + round2 ((9/2000 : ℚ) * (15/100))) = 0 := by
    rw [h15]
    norm_num [round2, jsRound]
  have hpr : pricingSuggestions (9/2000) 1 1 =
      [⟨.PRICING_OPPORTUNITY, .LOW, some 0⟩] := by
    unfold pricingSuggestions
    rw [if_pos ⟨le_refl 1, by norm_num⟩]
    simp only []
    rw [hdisp]
  have hlist : (generateVariantSuggestions (9/2000) 1 1 50 100 0 0 0).suggestions =
      [⟨.PRICING_OPPORTUNITY, .LOW, some 0⟩] := by
    rw [suggestions_eq_append, hpr]
    unfold inventorySuggestions performanceSuggestions trendSuggestions
      seasonalSuggestions bundlingSuggestions
    norm_num
  refine ⟨⟨⟨.PRICING_OPPORTUNITY, .LOW, some 0⟩, ?_, rfl, rfl⟩, ?_, by norm_num⟩
  · rw [hlist]
    simp
  · norm_num [round2, jsRound]

/-- Claim C7 (amended): `PRICING_OPPORTUNITY` fires iff monthly sales rate ≥
stale threshold and price > 0; the proposed price displayed is
`round2(price + round2(price × 0.15))`, which equals `price × 1.15` rounded
half-up to 2 decimals whenever the price is a whole number of cents
(`price = m/100`). -/
theorem claim7_pricing_opportunity (price r t inv d rev acc seas : ℚ) :
    ((.PRICING_OPPORTUNITY ∈ (generateVariantSuggestions price r t inv d rev acc
      seas).suggestions.map (·.type)) ↔ (r ≥ t ∧ price > 0))
    ∧ (∀ s ∈ (generateVariantSuggestions price r t inv d rev acc seas).suggestions,
        s.type = .PRICING_OPPORTUNITY →
        s.proposedPrice = some (round2 (price + round2 (price * (15/100)))))
    ∧ (∀ m : ℤ, price = (m : ℚ)/100 →
        round2 (price + round2 (price * (15/100))) = round2 (price * (115/100))) := by
  refine ⟨mem_types_pricing_iff price r t inv d rev acc seas,
    pricing_proposedPrice price r t inv d rev acc seas, ?_⟩
  rintro m rfl
  exact round2_cents_pricing m

/-- Witness for C7 (amended) at `price = \$20.00 = 2000/100`, `r = t = 10`:
the rule fires and the displayed price is `\$23.00 = 20 × 1.15`. -/
theorem claim7_pricing_opportunity_witness :
    (.PRICING_OPPORTUNITY ∈ (generateVariantSuggestions 20 10 10 50 100 200 0
      0).suggestions.map (·.type))
    ∧ round2 ((20 : ℚ) + round2 ((20 : ℚ) * (15/100))) = round2 ((20 : ℚ) * (115/100)) :=
  ⟨(claim7_pricing_opportunity 20 10 10 50 100 200 0 0).1.mpr
      ⟨le_refl 10, by norm_num⟩,
   (claim7_pricing_opportunity 20 10 10 50 100 200 0 0).2.2 2000 (by norm_num)⟩

/-! ## Zero-sales facts about the full analytics (C5, C6, C10) -/

theorem jsRound_zero : jsRound 0 = 0 := by
  norm_num [jsRound]

theorem specPercent_zero_units (n p c : ℚ) : specPercentSoldPerMonth 0 n p c = 0 := by
  unfold specPercentSoldPerMonth
  split_ifs <;> simp

theorem variantOrderQty_eq_zero {vid : ℤ} {o : Order}
    (h : ∀ it ∈ o.line_items, it.variant_id ≠ vid) : variantOrderQty vid o = 0 := by
  unfold variantOrderQty
  have : o.line_items.filter (fun it => it.variant_id = vid) = [] := by
    rw [List.filter_eq_nil_iff]
    intro it hit
    simp [h it hit]
  rw [this]
  rfl

theorem totalQuantitySoldOf_eq_zero {vid : ℤ} {orders : List Order}
    (h : ∀ o ∈ orders, ∀ it ∈ o.line_items, it.variant_id ≠ vid) :
    totalQuantitySoldOf vid orders = 0 := by
  unfold totalQuantitySoldOf
  rw [List.sum_eq_zero]
  intro x hx
  rw [List.mem_map] at hx
  obtain ⟨o, ho, rfl⟩ := hx
  exact variantOrderQty_eq_zero (h o ho)

/-- Core consequences of zero units sold in
`calculateFocusedVariantAnalytics`: all rate metrics are 0, the
days-of-stock division is guarded to 0, staleness is exactly `threshold > 0`,
and the suggestion engine is invoked with rate 0 and 0 days of stock. -/
theorem analytics_no_sales_core (sqrtFn : ℚ → ℚ) (variant : Variant)
    (orders : List Order) (product : Product) (ct : ℚ) (topt : Option ℚ)
    (h : totalQuantitySoldOf variant.id orders = 0) :
    (calculateFocusedVariantAnalytics sqrtFn variant orders product ct topt).total_quantity_sold = 0
    ∧ (calculateFocusedVariantAnalytics sqrtFn variant orders product ct topt).monthly_sales_rate = 0
    ∧ (calculateFocusedVariantAnalytics sqrtFn variant orders product ct topt).daily_sales_rate = 0
    ∧ (calculateFocusedVariantAnalytics sqrtFn variant orders product ct topt).inventory_turnover_rate = 0
    ∧ (calculateFocusedVariantAnalytics sqrtFn variant orders product ct topt).days_of_stock_remaining = 0
    ∧ ((calculateFocusedVariantAnalytics sqrtFn variant orders product ct
        topt).stale_analysis.is_stale = true ↔ 0 < jsOrDefault topt 10)
    ∧ (calculateFocusedVariantAnalytics sqrtFn variant orders product ct topt).suggestions =
        generateVariantSuggestions variant.price 0 (jsOrDefault topt 10)
          variant.inventory_quantity 0 (totalRevenueOf variant.id orders)
          (calculateSalesAcceleration orders variant.id)
          (calculateSeasonalityScore sqrtFn orders variant.id) := by
  unfold calculateFocusedVariantAnalytics
  simp only [h]
  have hrate : ∀ x : ℚ, (if x > 0 then (0 : ℚ) / x else 0) = 0 := by
    intro x
    split_ifs <;> simp
  rw [hrate, hrate]
  have hdays : (if (0 : ℚ) > 0 then variant.inventory_quantity / 0 else 0) = 0 := by
    norm_num
  rw [hdays]
  refine ⟨trivial, round2_zero, round2_zero, ?_, jsRound_zero, ?_, rfl⟩
  · rw [hrate]
    exact round2_zero
  · rw [is_stale_iff, specPercent_zero_units]

/-- Claim C5: on an empty order list the analytics yields zero totals and
rates, the stale analysis returns `is_stale = true` for any effective
threshold > 0 (the `staleThreshold || 10` default included), and the
suggestion output contains a `NO_SALES` suggestion. -/
theorem claim5_empty_orders (sqrtFn : ℚ → ℚ) (variant : Variant)
    (product : Product) (ct : ℚ) (topt : Option ℚ)
    (h : 0 < jsOrDefault topt 10) :
    (calculateFocusedVariantAnalytics sqrtFn variant [] product ct topt).total_quantity_sold = 0
    ∧ (calculateFocusedVariantAnalytics sqrtFn variant [] product ct topt).total_revenue = 0
    ∧ (calculateFocusedVariantAnalytics sqrtFn variant [] product ct topt).monthly_sales_rate = 0
    ∧ (calculateFocusedVariantAnalytics sqrtFn variant [] product ct topt).inventory_turnover_rate = 0
    ∧ (calculateFocusedVariantAnalytics sqrtFn variant [] product ct topt).stale_analysis.is_stale = true
    ∧ (calculateFocusedVariantAnalytics sqrtFn variant [] product ct topt).is_stale = 1
    ∧ .NO_SALES ∈ (calculateFocusedVariantAnalytics sqrtFn variant [] product ct
        topt).suggestions.suggestions.map (·.type) := by
  have h0 : totalQuantitySoldOf variant.id [] = 0 := rfl
  have core := analytics_no_sales_core sqrtFn variant [] product ct topt h0
  have hstale : (calculateFocusedVariantAnalytics sqrtFn variant [] product ct
      topt).stale_analysis.is_stale = true := core.2.2.2.2.2.1.mpr h
  refine ⟨core.1, ?_, core.2.1, core.2.2.2.1, hstale, ?_, ?_⟩
  · show round2 (totalRevenueOf variant.id []) = 0
    rw [show totalRevenueOf variant.id [] = 0 from rfl]
    exact round2_zero
  · show (if (calculateFocusedVariantAnalytics sqrtFn variant [] product ct
      topt).stale_analysis.is_stale then (1 : ℤ) else 0) = 1
    rw [hstale]
    rfl
  · rw [core.2.2.2.2.2.2]
    rw [mem_types_iff_mem_perf _ _ _ _ _ _ _ _ .NO_SALES rfl,
      performanceSuggestions_types, if_pos rfl]
    simp

/-- Witness for C5 with the default threshold (absent `staleThreshold`). -/
theorem claim5_empty_orders_witness :
    (calculateFocusedVariantAnalytics id ⟨1, 20, 0, 50⟩ [] ⟨⟨0, 0⟩⟩
      (60 * 86400000) none).stale_analysis.is_stale = true :=
  (claim5_empty_orders id ⟨1, 20, 0, 50⟩ ⟨⟨0, 0⟩⟩ (60 * 86400000) none
    (by norm_num [jsOrDefault])).2.2.2.2.1

/-- Claim C6 counterexample: the claim asserts that with daily sales rate 0
`calculateFocusedVariantAnalytics` performs an unguarded division producing an
unbounded (Infinity) days-of-stock value.  In the source
(`averageDailySales > 0 ? currentInventory / averageDailySales : 0`) the
division is guarded exactly like `calculateStockStatus`: at a concrete
zero-sales input with inventory 50 the result is the finite sentinel 0. -/
theorem claim6_counterexample :
    (calculateFocusedVariantAnalytics id ⟨1, 20, 0, 50⟩ [] ⟨⟨0, 0⟩⟩
      (60 * 86400000) none).days_of_stock_remaining = 0
    ∧ (calculateStockStatus 50 0).daysRemaining = 0 := by
  constructor
  · exact (analytics_no_sales_core id ⟨1, 20, 0, 50⟩ [] ⟨⟨0, 0⟩⟩
      (60 * 86400000) none rfl).2.2.2.2.1
  · simp only [calculateStockStatus]
    norm_num

/-- Claim C6 (amended): when the variant has zero units sold (so the average
daily sales rate is 0), `calculateFocusedVariantAnalytics` computes
`days_of_stock_remaining` through the guard
`averageDailySales > 0 ? … : 0`, yielding the finite value 0 — consistent
with `calculateStockStatus`, which also never divides by a non-positive daily
rate and likewise reports 0 days remaining for a zero rate. -/
theorem claim6_division_guarded (sqrtFn : ℚ → ℚ) (variant : Variant)
    (orders : List Order) (product : Product) (ct : ℚ) (topt : Option ℚ)
    (h : totalQuantitySoldOf variant.id orders = 0) :
    (calculateFocusedVariantAnalytics sqrtFn variant orders product ct
      topt).days_of_stock_remaining = 0
    ∧ ∀ stock : ℚ, (calculateStockStatus stock 0).daysRemaining = 0 := by
  constructor
  · exact (analytics_no_sales_core sqrtFn variant orders product ct topt h).2.2.2.2.1
  · intro stock
    simp only [calculateStockStatus]
    split_ifs <;> first
      | rfl
      | (exfalso; linarith [show ¬ ((0:ℚ) > 0) by norm_num])

/-- Witness for C6 (amended) at a concrete no-sales input. -/
theorem claim6_division_guarded_witness :
    (calculateFocusedVariantAnalytics id ⟨7, 15, 0, 42⟩ [] ⟨⟨0, 0⟩⟩
      (10 * 86400000) (some 5)).days_of_stock_remaining = 0
    ∧ (calculateStockStatus 42 0).daysRemaining = 0 :=
  ⟨(claim6_division_guarded id ⟨7, 15, 0, 42⟩ [] ⟨⟨0, 0⟩⟩ (10 * 86400000)
      (some 5) rfl).1,
   (claim6_division_guarded id ⟨7, 15, 0, 42⟩ [] ⟨⟨0, 0⟩⟩ (10 * 86400000)
      (some 5) rfl).2 42⟩

/-- Claim C10: for a variant with positive inventory whose orders contain no
matching line items, the guarded division yields
`days_of_stock_remaining = 0`, the suggestion output contains both `NO_SALES`
and `LOW_INVENTORY`, and the inventory status is `CRITICAL_LOW`. -/
theorem claim10_zero_sales_with_stock (sqrtFn : ℚ → ℚ) (variant : Variant)
    (orders : List Order) (product : Product) (ct : ℚ) (topt : Option ℚ)
    (hinv : 0 < variant.inventory_quantity)
    (hno : ∀ o ∈ orders, ∀ it ∈ o.line_items, it.variant_id ≠ variant.id) :
    (calculateFocusedVariantAnalytics sqrtFn variant orders product ct
      topt).days_of_stock_remaining = 0
    ∧ .NO_SALES ∈ (calculateFocusedVariantAnalytics sqrtFn variant orders product ct
        topt).suggestions.suggestions.map (·.type)
    ∧ .LOW_INVENTORY ∈ (calculateFocusedVariantAnalytics sqrtFn variant orders product ct
        topt).suggestions.suggestions.map (·.type)
    ∧ (calculateFocusedVariantAnalytics sqrtFn variant orders product ct
        topt).suggestions.inventory_status = .CRITICAL_LOW := by
  have h0 := totalQuantitySoldOf_eq_zero hno
  have core := analytics_no_sales_core sqrtFn variant orders product ct topt h0
  refine ⟨core.2.2.2.2.1, ?_, ?_, ?_⟩
  · rw [core.2.2.2.2.2.2]
    rw [mem_types_iff_mem_perf _ _ _ _ _ _ _ _ .NO_SALES rfl,
      performanceSuggestions_types, if_pos rfl]
    simp
  · rw [core.2.2.2.2.2.2]
    rw [mem_types_iff_mem_inv _ _ _ _ _ _ _ _ .LOW_INVENTORY rfl,
      inventorySuggestions_types, if_neg (by exact ne_of_gt hinv), if_pos (by norm_num)]
    simp
  · rw [core.2.2.2.2.2.2]
    show getSimpleInventoryStatus 0 variant.inventory_quantity = .CRITICAL_LOW
    exact (getSimpleInventoryStatus_spec 0 variant.inventory_quantity).2.1.mpr
      ⟨ne_of_gt hinv, by norm_num⟩

/-- Witness for C10: inventory 50, one order touching a different variant. -/
theorem claim10_zero_sales_with_stock_witness :
    (calculateFocusedVariantAnalytics id ⟨1, 20, 0, 50⟩
      [⟨⟨86400000, 3⟩, [⟨2, 4, 10⟩]⟩] ⟨⟨0, 0⟩⟩ (60 * 86400000)
      none).suggestions.inventory_status = .CRITICAL_LOW :=
  (claim10_zero_sales_with_stock id ⟨1, 20, 0, 50⟩
    [⟨⟨86400000, 3⟩, [⟨2, 4, 10⟩]⟩] ⟨⟨0, 0⟩⟩ (60 * 86400000) none
    (by norm_num) (by intro o ho it hit; simp at ho; subst ho; simp at hit; subst hit; decide)).2.2.2

/-! ## Category resolution (C8) -/

/-- `List.find?` returns the element at the first index whose earlier elements
all fail the predicate. -/
theorem find?_eq_some_of_first {α : Type} (p : α → Bool) :
    ∀ (l : List α) (i : ℕ) (c : α), l[i]? = some c → p c = true →
      (∀ x ∈ l.take i, p x = false) → l.find? p = some c := by
  intro l
  induction l with
  | nil =>
    intro i c hc
    simp at hc
  | cons a as ih =>
    intro i c hc hp hprior
    cases i with
    | zero =>
      simp at hc
      subst hc
      exact List.find?_cons_of_pos _ hp
    | succ n =>
      have ha : p a = false := hprior a (by simp [List.take_succ_cons])
      rw [List.find?_cons_of_neg _ (by simp [ha])]
      refine ih n c (by simpa using hc) hp ?_
      intro x hx
      exact hprior x (by simp [List.take_succ_cons, hx])

/-- Claim C8: the category resolver (a) returns, for a tags string containing
a predefined category, the first matching category in list order and does not
invoke the external endpoint; (b) never raises on external-service failure
(the embedding is a total function) and on failure degrades to the static
product-type map; (c) which returns "general" for an unmapped type. -/
theorem claim8_category_resolver (tags productType : Option String) (cfg : Bool)
    (call : AICallOutcome) :
    (∀ t c, tags = some t → t ≠ "" →
      (∃ i : ℕ, PREDEFINED_CATEGORIES[i]? = some c
        ∧ jsIncludes (jsToLower t) c = true
        ∧ ∀ x ∈ PREDEFINED_CATEGORIES.take i, jsIncludes (jsToLower t) x = false) →
      getProductCategoryFromAI tags productType cfg call = (c, false))
    ∧ (getCategoryFromTags tags = none →
        (getProductCategoryFromAI tags productType cfg (.error ())).1
          = getProductCategory productType)
    ∧ (∀ pt, productType = some pt →
        CATEGORY_MAPPING.find? (fun pr => pr.1.toList = jsToLower pt) = none →
        getProductCategory productType = "general") := by
  refine ⟨?_, ?_, ?_⟩
  · rintro t c rfl hne ⟨i, hi, hmatch, hprior⟩
    have hfind : PREDEFINED_CATEGORIES.find?
        (fun cat => jsIncludes (jsToLower t) cat) = some c :=
      find?_eq_some_of_first _ _ i c hi hmatch hprior
    have htags : getCategoryFromTags (some t) = some c := by
      show (if t = "" then none
        else PREDEFINED_CATEGORIES.find?
          (fun category => jsIncludes (jsToLower t) category)) = some c
      rw [if_neg hne, hfind]
    unfold getProductCategoryFromAI
    rw [htags]
  · intro hnone
    unfold getProductCategoryFromAI
    rw [hnone]
    split_ifs <;> rfl
  · rintro pt rfl hfind
    show (match CATEGORY_MAPPING.find? (fun pr => pr.1.toList = jsToLower pt) with
      | some pr => pr.2
      | none => "general") = "general"
    rw [hfind]

/-- Witness for C8: the spec's example tags resolve to "fashion" via the
second list entry, without an external call, and an unmapped type yields
"general". -/
theorem claim8_category_resolver_witness :
    getProductCategoryFromAI (some "summer, fashion essentials") (some "Gadget")
      true (.error ()) = ("fashion", false)
    ∧ getProductCategory (some "Gadget") = "general" := by
  have h := claim8_category_resolver (some "summer, fashion essentials")
    (some "Gadget") true (.error ())
  exact ⟨h.1 "summer, fashion essentials" "fashion" rfl (by decide)
      ⟨1, rfl, by decide, by decide⟩,
    h.2.2 "Gadget" rfl (by decide)⟩

/-! ## Pagination bound (C9) -/

/-- The pagination loop performs at most `budget` further fetches. -/
theorem getAllProductsLoop_pageCount_le (resp : ℕ → PageResponse) :
    ∀ (budget pageCount : ℕ) (acc : List ℤ),
      (getAllProductsLoop resp budget pageCount acc).2 ≤ pageCount + budget := by
  intro budget
  induction budget with
  | zero =>
    intro pc acc
    simp [getAllProductsLoop]
  | succ b ih =>
    intro pc acc
    unfold getAllProductsLoop
    dsimp only
    split_ifs
    · exact le_trans (ih (pc + 1) _) (by omega)
    · omega

/-- Claim C9: `getAllProducts` terminates for every upstream response stream
(it is a total function of the stream, the loop being bounded by
`pageCount < 50`) and performs at most 50 page fetches — even when every
response claims a further page exists. -/
theorem claim9_pagination_bounded (resp : ℕ → PageResponse) :
    (getAllProducts resp).2 ≤ 50 := by
  have h := getAllProductsLoop_pageCount_le resp 50 0 []
  simpa [getAllProducts] using h

end RMO
